import Mathlib

/-!
Verification of the smash_database ingestion and reconciliation engine.

Shallow Lean embedding of the Python sources under `scripts/`:
  * `scripts/fetch/download.py` — match-set derivation (`write_matches`),
    user-store append (`extend_user_info`), per-event pipeline control flow
    (`download_all_tournaments`);
  * `scripts/utils.py` — `fetch_data_with_retries`, `fetch_all_nodes`;
  * `scripts/fix/validate_data.py` — standings null-user ratio check of
    `validate_event_dir`;
  * `scripts/check_jjpr_events.py` — `normalize_name`,
    `build_tournament_index`;
  * `scripts/check_and_fill_missing.py` — `find_missing_events`;
  * `scripts/fix/fill_missing_events.py` — per-event pipeline control flow
    (`process_event`).

Python dicts holding records become structures; JSON null becomes `Option`;
Python dict lookup over id keys becomes association-list lookup with
insertion-order append; integer scores become `Int`.
-/

namespace SmashDB

/-! ## Match-set derivation (`write_matches`, scripts/fetch/download.py) -/

/-- GraphQL `score` object: `{"value": ...}` where `value` may be null. -/
structure Score where
  value : Option Int
  deriving DecidableEq, Repr

/-- GraphQL `stats` object of a slot's standing. -/
structure Stats where
  score : Score
  deriving DecidableEq, Repr

/-- GraphQL `standing` object of a slot. -/
structure SlotStanding where
  stats : Stats
  deriving DecidableEq, Repr

/-- GraphQL `entrant` object of a slot: we keep the `id` the code reads. -/
structure SlotEntrant where
  id : Int
  deriving DecidableEq, Repr

/-- One slot of a set: `entrant` and `standing` may each be null. -/
structure Slot where
  entrant : Option SlotEntrant
  standing : Option SlotStanding
  deriving DecidableEq, Repr

/-- GraphQL `wave` object of a phase group. -/
structure Wave where
  identifier : Option String
  deriving DecidableEq, Repr

/-- GraphQL `phaseGroup` object of a set node. -/
structure PhaseGroup where
  displayIdentifier : Option String
  wave : Option Wave
  deriving DecidableEq, Repr

/-- GraphQL `stage` object of a game. -/
structure Stage where
  name : String
  deriving DecidableEq, Repr

/-- GraphQL `character` object of a selection. -/
structure Character where
  id : Int
  name : String
  deriving DecidableEq, Repr

/-- GraphQL `entrant` reference inside a selection. -/
structure SelectionEntrant where
  id : Int
  deriving DecidableEq, Repr

/-- GraphQL `selection` object of a game. -/
structure Selection where
  id : Int
  entrant : SelectionEntrant
  character : Character
  deriving DecidableEq, Repr

/-- GraphQL `game` object of a set node. -/
structure Game where
  id : Int
  orderNum : Option Int
  winnerId : Option Int
  entrant1Score : Option Int
  entrant2Score : Option Int
  stage : Option Stage
  selections : Option (List Selection)
  deriving DecidableEq, Repr

/-- One set node as returned by the sets query (fields `write_matches` reads). -/
structure SetNode where
  slots : Option (List Slot)
  fullRoundText : Option String
  round : Option Int
  phaseGroup : Option PhaseGroup
  state : Option Int
  games : Option (List Game)
  deriving DecidableEq, Repr

/-- The entrant→user dictionary built from standings/seeds; Python
`entrant2user[k] if k in entrant2user else None` becomes application. -/
def Entrant2User : Type := Int → Option Int

/-- Per-game detail record written into `matches.json` `details`. -/
structure GameDetail where
  game_id : Int
  order_num : Option Int
  winner_id : Option Int
  entrant1_score : Option Int
  entrant2_score : Option Int
  stage : Option String
  selections : List (Option Int × Int × Int × String)
  deriving DecidableEq, Repr

/-- One persisted match record (the dict appended to `json_data["data"]`). -/
structure MatchData where
  winner_id : Option Int
  loser_id : Option Int
  winner_score : Int
  loser_score : Int
  round_text : Option String
  round : Option Int
  phase : Option String
  wave : Option String
  dq : Bool
  cancel : Bool
  state : Option Int
  details : List GameDetail
  deriving DecidableEq, Repr

/-- The `details` list comprehension of `write_matches`: one entry per game,
selections resolved through `entrant2user` (missing keys become null). -/
def gameDetails (entrant2user : Entrant2User) (games : Option (List Game)) :
    List GameDetail :=
  match games with
  | none => []
  | some gs =>
    gs.map fun game =>
      { game_id := game.id
        order_num := game.orderNum
        winner_id := game.winnerId.bind entrant2user
        entrant1_score := game.entrant1Score
        entrant2_score := game.entrant2Score
        stage := game.stage.map Stage.name
        selections :=
          match game.selections with
          | none => []
          | some sels =>
            sels.map fun s =>
              (entrant2user s.entrant.id, s.id, s.character.id, s.character.name) }

/-- The body of the `for node in all_nodes` loop of `write_matches`: `none`
when the node is skipped (slots missing / not exactly two / a slot lacking
entrant or standing), otherwise the match record that is appended. -/
def processNode (entrant2user : Entrant2User) (node : SetNode) :
    Option MatchData :=
  match node.slots with
  | some [slot0, slot1] =>
    match slot0.entrant, slot1.entrant, slot0.standing, slot1.standing with
    | some _, some _, some st0, some st1 =>
      let score0 : Int := (st0.stats.score.value).getD 0
      let score1 : Int := (st1.stats.score.value).getD 0
      let winner_slot := if score0 > score1 then slot0 else slot1
      let loser_slot := if winner_slot = slot0 then slot1 else slot0
      let winner_score := if winner_slot = slot0 then score0 else score1
      let loser_score := if winner_slot = slot0 then score1 else score0
      let dq : Bool := decide (score0 < 0) || decide (score1 < 0)
      let cancel : Bool := decide (score0 = 0) && decide (score1 = 0)
      let phase := node.phaseGroup.bind PhaseGroup.displayIdentifier
      let wave := (node.phaseGroup.bind PhaseGroup.wave).bind Wave.identifier
      some
        { winner_id := (winner_slot.entrant.map SlotEntrant.id).bind entrant2user
          loser_id := (loser_slot.entrant.map SlotEntrant.id).bind entrant2user
          winner_score := winner_score
          loser_score := loser_score
          round_text := node.fullRoundText
          round := node.round
          phase := phase
          wave := wave
          dq := dq
          cancel := cancel
          state := node.state
          details := gameDetails entrant2user node.games }
    | _, _, _, _ => none
  | _ => none

/-- `write_matches` as a pure function: the list stored under
`json_data["data"]` in `matches.json`. -/
def write_matches (all_nodes : List SetNode) (entrant2user : Entrant2User) :
    List MatchData :=
  all_nodes.filterMap (processNode entrant2user)

/-! Concrete set nodes used to exercise the derivation. -/

/-- Slot for entrant 10 with score 3. -/
def slotA3 : Slot := { entrant := some ⟨10⟩, standing := some ⟨⟨⟨some 3⟩⟩⟩ }

/-- Slot for entrant 20 with score 1. -/
def slotB1 : Slot := { entrant := some ⟨20⟩, standing := some ⟨⟨⟨some 1⟩⟩⟩ }

/-- Slot for entrant 10 with score 2. -/
def slotA2 : Slot := { entrant := some ⟨10⟩, standing := some ⟨⟨⟨some 2⟩⟩⟩ }

/-- Slot for entrant 20 with score 2. -/
def slotB2 : Slot := { entrant := some ⟨20⟩, standing := some ⟨⟨⟨some 2⟩⟩⟩ }

/-- Slot for entrant 10 with a null score value. -/
def slotANull : Slot := { entrant := some ⟨10⟩, standing := some ⟨⟨⟨none⟩⟩⟩ }

/-- Slot for entrant 20 with a null score value. -/
def slotBNull : Slot := { entrant := some ⟨20⟩, standing := some ⟨⟨⟨none⟩⟩⟩ }

/-- A set node with the two given slots and no optional metadata. -/
def mkSetNode (s0 s1 : Slot) : SetNode :=
  { slots := some [s0, s1]
    fullRoundText := none, round := none, phaseGroup := none
    state := none, games := none }

/-- Entrant→user map sending entrant 10 to user 100 and entrant 20 to
user 200. -/
def sampleE2U : Entrant2User := fun k =>
  if k = 10 then some 100 else if k = 20 then some 200 else none

end SmashDB

namespace SmashDB

/-- C1: in `write_matches`, for a persisted set with present slot scores
`(s0, s1)`: `(3, 1)` gives `winner_score = 3`, `loser_score = 1`,
`dq = false`, `cancel = false`; a negative score on either side gives
`dq = true`; `(0, 0)` gives `cancel = true` and `dq = false`. -/
theorem write_matches_score_flags
    (entrant2user : Entrant2User) (node : SetNode)
    (slot0 slot1 : Slot) (e0 e1 : SlotEntrant) (st0 st1 : SlotStanding)
    (s0 s1 : Int) (m : MatchData)
    (hslots : node.slots = some [slot0, slot1])
    (he0 : slot0.entrant = some e0) (he1 : slot1.entrant = some e1)
    (hst0 : slot0.standing = some st0) (hst1 : slot1.standing = some st1)
    (hs0 : st0.stats.score.value = some s0)
    (hs1 : st1.stats.score.value = some s1)
    (hm : processNode entrant2user node = some m) :
    ((s0 = 3 ∧ s1 = 1) → m.winner_score = 3 ∧ m.loser_score = 1 ∧
        m.dq = false ∧ m.cancel = false) ∧
    ((s0 < 0 ∨ s1 < 0) → m.dq = true) ∧
    ((s0 = 0 ∧ s1 = 0) → m.cancel = true ∧ m.dq = false) := by
  unfold processNode at hm
  rw [hslots] at hm
  dsimp only at hm
  rw [he0, he1, hst0, hst1] at hm
  dsimp only at hm
  simp only [hs0, hs1, Option.getD_some, Option.some.injEq] at hm
  subst hm
  refine ⟨?_, ?_, ?_⟩
  · rintro ⟨rfl, rfl⟩
    norm_num
  · rintro (h | h) <;> simp [h]
  · rintro ⟨rfl, rfl⟩
    norm_num

/-- The match record `write_matches` derives for slots with scores `(3, 1)`
and entrants 10 and 20 under `sampleE2U`. -/
def match31 : MatchData :=
  { winner_id := some 100, loser_id := some 200
    winner_score := 3, loser_score := 1
    round_text := none, round := none, phase := none, wave := none
    dq := false, cancel := false, state := none, details := [] }

/-- Witness for C1 at the concrete set with scores `(3, 1)`. -/
theorem write_matches_score_flags_witness :
    (((3 : Int) = 3 ∧ (1 : Int) = 1) →
        match31.winner_score = 3 ∧ match31.loser_score = 1 ∧
        match31.dq = false ∧ match31.cancel = false) ∧
    (((3 : Int) < 0 ∨ (1 : Int) < 0) → match31.dq = true) ∧
    (((3 : Int) = 0 ∧ (1 : Int) = 0) → match31.cancel = true ∧
        match31.dq = false) :=
  write_matches_score_flags sampleE2U (mkSetNode slotA3 slotB1)
    slotA3 slotB1 ⟨10⟩ ⟨20⟩ ⟨⟨⟨some 3⟩⟩⟩ ⟨⟨⟨some 1⟩⟩⟩ 3 1 match31
    rfl rfl rfl rfl rfl rfl rfl (by decide)

/-- C2 counterexample: with equal nonzero scores `(2, 2)` the code records
the slot-1 entrant (user 200) as winner and the slot-0 entrant (user 100)
as loser, refuting the claim that slot 0 wins ties. -/
theorem tie_slot0_wins_counterexample :
    (processNode sampleE2U (mkSetNode slotA2 slotB2)).map MatchData.winner_id
      = some (some 200) ∧
    (processNode sampleE2U (mkSetNode slotA2 slotB2)).map MatchData.loser_id
      = some (some 100) := by
  decide

/-- C2 amended: with equal nonzero slot scores, `write_matches` records the
slot-1 entrant as winner and the slot-0 entrant as loser (whenever the two
slot objects are not structurally identical, since `score0 > score1` fails
on a tie and the code then takes slot 1). -/
theorem tie_winner_is_slot1
    (entrant2user : Entrant2User) (node : SetNode)
    (slot0 slot1 : Slot) (e0 e1 : SlotEntrant) (st0 st1 : SlotStanding)
    (s : Int) (m : MatchData)
    (hslots : node.slots = some [slot0, slot1])
    (he0 : slot0.entrant = some e0) (he1 : slot1.entrant = some e1)
    (hst0 : slot0.standing = some st0) (hst1 : slot1.standing = some st1)
    (hs0 : st0.stats.score.value = some s)
    (hs1 : st1.stats.score.value = some s)
    (hs : s ≠ 0)
    (hne : slot0 ≠ slot1)
    (hm : processNode entrant2user node = some m) :
    m.winner_id = entrant2user e1.id ∧ m.loser_id = entrant2user e0.id := by
  clear hs
  unfold processNode at hm
  rw [hslots] at hm
  dsimp only at hm
  rw [he0, he1, hst0, hst1] at hm
  dsimp only at hm
  simp only [hs0, hs1, Option.getD_some, Option.some.injEq] at hm
  subst hm
  have hgt : ¬ (s > s) := lt_irrefl s
  simp only [hgt, if_false]
  rw [if_neg (fun h => hne h.symm)]
  simp [he0, he1]

/-- The match record `write_matches` derives for slots with scores `(2, 2)`
and entrants 10 and 20 under `sampleE2U`. -/
def match22 : MatchData :=
  { winner_id := some 200, loser_id := some 100
    winner_score := 2, loser_score := 2
    round_text := none, round := none, phase := none, wave := none
    dq := false, cancel := false, state := none, details := [] }

/-- Witness for the amended C2 at the concrete tied set `(2, 2)`. -/
theorem tie_winner_is_slot1_witness :
    match22.winner_id = sampleE2U 20 ∧ match22.loser_id = sampleE2U 10 :=
  tie_winner_is_slot1 sampleE2U (mkSetNode slotA2 slotB2)
    slotA2 slotB2 ⟨10⟩ ⟨20⟩ ⟨⟨⟨some 2⟩⟩⟩ ⟨⟨⟨some 2⟩⟩⟩ 2 match22
    rfl rfl rfl rfl rfl rfl rfl (by decide) (by decide) (by decide)

/-- C10: a slot whose standing exists but whose score value is null is not
skipped; both-null scores are coerced to 0, so the set is persisted with
`winner_score = 0`, `loser_score = 0`, `dq = false`, `cancel = true`. -/
theorem null_scores_not_skipped
    (entrant2user : Entrant2User) (node : SetNode)
    (slot0 slot1 : Slot) (e0 e1 : SlotEntrant) (st0 st1 : SlotStanding)
    (hslots : node.slots = some [slot0, slot1])
    (he0 : slot0.entrant = some e0) (he1 : slot1.entrant = some e1)
    (hst0 : slot0.standing = some st0) (hst1 : slot1.standing = some st1)
    (hs0 : st0.stats.score.value = none)
    (hs1 : st1.stats.score.value = none) :
    ∃ m, processNode entrant2user node = some m ∧
      m.winner_score = 0 ∧ m.loser_score = 0 ∧
      m.dq = false ∧ m.cancel = true := by
  unfold processNode
  rw [hslots]
  dsimp only
  rw [he0, he1, hst0, hst1]
  dsimp only
  simp [hs0, hs1]

/-- Witness for C10 at the concrete set whose two score values are null. -/
theorem null_scores_not_skipped_witness :
    ∃ m, processNode sampleE2U (mkSetNode slotANull slotBNull) = some m ∧
      m.winner_score = 0 ∧ m.loser_score = 0 ∧
      m.dq = false ∧ m.cancel = true :=
  null_scores_not_skipped sampleE2U (mkSetNode slotANull slotBNull)
    slotANull slotBNull ⟨10⟩ ⟨20⟩ ⟨⟨⟨none⟩⟩⟩ ⟨⟨⟨none⟩⟩⟩
    rfl rfl rfl rfl rfl rfl rfl

/-! ## Retry gate (`fetch_data_with_retries`, scripts/utils.py)

An attempt is modelled by its outcome: `some r` when the HTTP post succeeds
and the body parses as JSON (the parsed response `r`), `none` when a
`RequestException` or `JSONDecodeError` is raised.  The second component of
the result counts the total time slept (`retry_delay` after every failed
attempt, the last one included, exactly as in the Python `except` block). -/

/-- Python exception values the fetch layer raises. -/
inductive PyErr where
  | generic (msg : String)
  | fetchError (msg : String)
  | noPhase (msg : String)
  deriving DecidableEq, Repr

/-- The `for attempt in range(__max_retries)` loop: `i` is the index of the
current attempt, the `Nat` argument the number of attempts still allowed.
When the budget is exhausted the generic exhaustion error is raised. -/
def retriesGo {ρ : Type} (attempts : Nat → Option ρ) (retryDelay i : Nat) :
    Nat → Except PyErr ρ × Nat
  | 0 => (Except.error (PyErr.generic "Max retries exceeded"), 0)
  | n + 1 =>
    match attempts i with
    | some r => (Except.ok r, 0)
    | none =>
      let rest := retriesGo attempts retryDelay (i + 1) n
      (rest.1, retryDelay + rest.2)

/-- `fetch_data_with_retries` as a pure function of the attempt outcomes:
the returned response or raised error, paired with the total sleep time. -/
def fetch_data_with_retries {ρ : Type} (attempts : Nat → Option ρ)
    (maxRetries retryDelay : Nat) : Except PyErr ρ × Nat :=
  retriesGo attempts retryDelay 0 maxRetries

/-! ## Paginator (`fetch_all_nodes`, scripts/utils.py)

Each page's response, for the claims' purposes, is the container the key
path leads to: either the key path is broken (`FetchError`), or a container
carrying a declared total (which the code never reads) and an optional
`"nodes"` list (`none` when the `"nodes"` key is absent, in which case the
code returns what it has accumulated). -/

/-- Response envelope of one page after following the key path. -/
inductive PageResp (α : Type) where
  | missingKey (key : String)
  | container (declaredTotal : Option Nat) (nodes : Option (List α))
  deriving DecidableEq, Repr

/-- Outcome of a pagination run: `FetchError` raised, or the node list. -/
inductive PageResult (α : Type) where
  | fetchError (key : String)
  | ok (nodes : List α)
  deriving DecidableEq, Repr

/-- The `while True` loop of `fetch_all_nodes`: `acc` is `all_nodes`,
`page` the current page variable; the fuel argument returns `none` when
exhausted (the Python loop would still be running). -/
def fetchAllNodesGo {α : Type} (pages : Nat → PageResp α) (acc : List α)
    (page : Nat) : Nat → Option (PageResult α)
  | 0 => none
  | fuel + 1 =>
    match pages page with
    | PageResp.missingKey k => some (PageResult.fetchError k)
    | PageResp.container _ none => some (PageResult.ok acc)
    | PageResp.container _ (some nodes) =>
      if nodes.length > 0 then
        fetchAllNodesGo pages (acc ++ nodes) (page + 1) fuel
      else
        some (PageResult.ok (acc ++ nodes))

/-- `fetch_all_nodes` as a pure function: pagination starts at page 1 with
an empty accumulator. -/
def fetch_all_nodes {α : Type} (pages : Nat → PageResp α) (fuel : Nat) :
    Option (PageResult α) :=
  fetchAllNodesGo pages [] 1 fuel

end SmashDB

namespace SmashDB

theorem retriesGo_success {ρ : Type} (attempts : Nat → Option ρ)
    (retryDelay : Nat) :
    ∀ n i k r, k < n → attempts (i + k) = some r →
      (∀ j, j < k → attempts (i + j) = none) →
      retriesGo attempts retryDelay i n = (Except.ok r, k * retryDelay) := by
  intro n
  induction n with
  | zero => omega
  | succ n ih =>
    intro i k r hk hsucc hfail
    cases k with
    | zero =>
      simp only [Nat.add_zero] at hsucc
      simp [retriesGo, hsucc]
    | succ k =>
      have h0 : attempts i = none := by
        have := hfail 0 (Nat.succ_pos k)
        simpa using this
      have hrec := ih (i + 1) k r (by omega)
        (by rw [show i + 1 + k = i + (k + 1) by omega]; exact hsucc)
        (fun j hj => by
          rw [show i + 1 + j = i + (j + 1) by omega]
          exact hfail (j + 1) (by omega))
      simp only [retriesGo, h0, hrec]
      congr 1
      ring

theorem retriesGo_exhausted {ρ : Type} (attempts : Nat → Option ρ)
    (retryDelay : Nat) :
    ∀ n i, (∀ j, j < n → attempts (i + j) = none) →
      retriesGo attempts retryDelay i n =
        (Except.error (PyErr.generic "Max retries exceeded"),
          n * retryDelay) := by
  intro n
  induction n with
  | zero => intro i _; simp [retriesGo]
  | succ n ih =>
    intro i hfail
    have h0 : attempts i = none := by
      have := hfail 0 (Nat.succ_pos n)
      simpa using this
    have hrec := ih (i + 1) (fun j hj => by
      rw [show i + 1 + j = i + (j + 1) by omega]
      exact hfail (j + 1) (by omega))
    simp only [retriesGo, h0, hrec]
    congr 1
    ring

/-- C5: `fetch_data_with_retries` returns the parsed response of the first
successful attempt (sleeping the fixed delay once per preceding failure);
when all `maxRetries` attempts fail it sleeps after each of them and raises
the generic exhaustion error `Exception("Max retries exceeded")`, which is
not the typed `FetchError`. -/
theorem fetch_data_with_retries_spec {ρ : Type} (attempts : Nat → Option ρ)
    (maxRetries retryDelay : Nat) :
    (∀ k r, k < maxRetries → attempts k = some r →
      (∀ i, i < k → attempts i = none) →
      fetch_data_with_retries attempts maxRetries retryDelay =
        (Except.ok r, k * retryDelay)) ∧
    ((∀ i, i < maxRetries → attempts i = none) →
      fetch_data_with_retries attempts maxRetries retryDelay =
        (Except.error (PyErr.generic "Max retries exceeded"),
          maxRetries * retryDelay)) ∧
    (∀ msg, PyErr.generic "Max retries exceeded" ≠ PyErr.fetchError msg) := by
  refine ⟨?_, ?_, ?_⟩
  · intro k r hk hsucc hfail
    exact retriesGo_success attempts retryDelay maxRetries 0 k r hk
      (by simpa using hsucc) (fun j hj => by simpa using hfail j hj)
  · intro hfail
    exact retriesGo_exhausted attempts retryDelay maxRetries 0
      (fun j hj => by simpa using hfail j hj)
  · intro msg h
    cases h

/-- Auxiliary invariant of the pagination loop: starting at any page
`page ≤ k` with accumulator `acc`, when pages `page, …, k - 1` are
nonempty and page `k` is empty, the loop returns the accumulator followed
by those pages' nodes in order, for any declared totals `t`. -/
theorem fetchAllNodesGo_spec {α : Type} (t : Nat → Option Nat)
    (f : Nat → List α) (k : Nat)
    (hk : f k = []) :
    ∀ fuel page acc, 1 ≤ page → page ≤ k →
      (∀ i, page ≤ i → i < k → f i ≠ []) →
      k + 1 - page ≤ fuel →
      fetchAllNodesGo (fun i => PageResp.container (t i) (some (f i)))
        acc page fuel =
        some (PageResult.ok
          (acc ++ (List.range' page (k - page)).flatMap f)) := by
  intro fuel
  induction fuel with
  | zero => intro page acc h1 hpk _ hfuel; omega
  | succ fuel ih =>
    intro page acc h1 hpk hne hfuel
    rcases Nat.lt_or_ge page k with hlt | hge
    · have hnonempty : f page ≠ [] := hne page le_rfl hlt
      have hlen : (f page).length > 0 := List.length_pos.mpr hnonempty
      simp only [fetchAllNodesGo, hlen, if_pos]
      rw [ih (page + 1) (acc ++ f page) (by omega) (by omega)
        (fun i hi1 hi2 => hne i (by omega) hi2) (by omega)]
      have hrange : List.range' page (k - page) =
          page :: List.range' (page + 1) (k - (page + 1)) := by
        have : k - page = (k - (page + 1)) + 1 := by omega
        rw [this, List.range'_succ]
      rw [hrange]
      simp [List.flatMap_cons, List.append_assoc]
    · have hpage : page = k := by omega
      subst hpage
      simp only [fetchAllNodesGo, hk]
      simp

/-- C4: for a well-formed page sequence — every page a container whose
node list is present, pages `1, …, k - 1` nonempty and page `k` the first
empty one — `fetch_all_nodes` starts at page 1, advances one page after
each nonempty page, returns the concatenation of pages `1, …, k - 1` in
order, and stops exactly at page `k`; the declared totals `t` never
influence the result. -/
theorem fetch_all_nodes_spec {α : Type} (t : Nat → Option Nat)
    (f : Nat → List α) (k fuel : Nat)
    (h1 : 1 ≤ k) (hk : f k = [])
    (hne : ∀ i, 1 ≤ i → i < k → f i ≠ [])
    (hfuel : k ≤ fuel) :
    fetch_all_nodes (fun i => PageResp.container (t i) (some (f i))) fuel =
      some (PageResult.ok ((List.range' 1 (k - 1)).flatMap f)) := by
  unfold fetch_all_nodes
  rw [fetchAllNodesGo_spec t f k hk fuel 1 [] le_rfl h1 hne (by omega)]
  simp

/-- A three-page sequence: `[1, 2]`, `[3]`, then the empty sentinel page. -/
def samplePages : Nat → List Nat
  | 1 => [1, 2]
  | 2 => [3]
  | _ => []

/-- Witness for C4: the sample pages (with a bogus declared total of 99)
paginate to `[1, 2, 3]`. -/
theorem fetch_all_nodes_spec_witness :
    fetch_all_nodes
        (fun i => PageResp.container (some 99) (some (samplePages i))) 5 =
      some (PageResult.ok [1, 2, 3]) := by
  rw [fetch_all_nodes_spec (fun _ => some 99) samplePages 3 5 (by decide) rfl
    (fun i hi1 hi2 => by interval_cases i <;> simp [samplePages]) (by decide)]
  decide

/-- Attempt sequence failing twice, then succeeding with response 42. -/
def sampleAttempts : Nat → Option Nat := fun i =>
  if i = 2 then some 42 else none

/-- Witness for C5: success on the third attempt after two sleeps, and
exhaustion after three all-failing attempts. -/
theorem fetch_data_with_retries_spec_witness :
    fetch_data_with_retries sampleAttempts 5 7 = (Except.ok 42, 14) ∧
    fetch_data_with_retries (fun _ => (none : Option Nat)) 3 7 =
      (Except.error (PyErr.generic "Max retries exceeded"), 21) :=
  ⟨(fetch_data_with_retries_spec sampleAttempts 5 7).1 2 42 (by decide)
      (by decide) (by decide),
    (fetch_data_with_retries_spec (fun _ => (none : Option Nat)) 3 7).2.1
      (fun i _ => rfl)⟩

end SmashDB

namespace SmashDB

/-! ## User store append (`extend_user_info`, scripts/fetch/download.py)

The `users` dict (user id → record) is modelled as an association list in
insertion order; Python `user_id not in users` is `lookup … |>.isSome`,
`users[user_id] = new_user` on a fresh key is an append.  `user_data` and
`player_data` entries may be null (skipped by the loop). -/

/-- One entry of a user's `authorizations` list. -/
structure Auth where
  type : String
  externalId : Option String
  externalUsername : Option String
  deriving DecidableEq, Repr

/-- The fields `extend_user_info` reads from a `user` object. -/
structure UserSrc where
  id : Int
  genderPronoun : Option String
  discriminator : Option String
  authorizations : Option (List Auth)
  deriving DecidableEq, Repr

/-- The fields `extend_user_info` reads from a `player` object
(`prefix_` stands for the Python key `prefix`). -/
structure PlayerSrc where
  id : Int
  gamerTag : Option String
  prefix_ : Option String
  deriving DecidableEq, Repr

/-- One stored user record (the dict appended to `new_users`). -/
structure NewUser where
  user_id : Int
  player_id : Int
  gamer_tag : Option String
  prefix_ : Option String
  gender_pronoun : String
  startgg_discriminator : Option String
  x_id : Option String
  x_name : Option String
  discord_id : Option String
  discord_name : Option String
  deriving DecidableEq, Repr

/-- The `for authorization in user['authorizations']` loop: each TWITTER
entry reassigns the x pair, each DISCORD entry the discord pair (so the
last entry per provider wins, as in the source). -/
def socialHandles (auths : List Auth) :
    (Option String × Option String) × (Option String × Option String) :=
  auths.foldl
    (fun acc a =>
      if a.type = "TWITTER" then ((a.externalId, a.externalUsername), acc.2)
      else if a.type = "DISCORD" then
        (acc.1, (a.externalId, a.externalUsername))
      else acc)
    ((none, none), (none, none))

/-- The `new_user` dict built for one `(user, player)` pair. -/
def mkNewUser (user : UserSrc) (player : PlayerSrc) : NewUser :=
  let social := socialHandles (user.authorizations.getD [])
  { user_id := user.id
    player_id := player.id
    gamer_tag := player.gamerTag
    prefix_ := player.prefix_
    gender_pronoun := user.genderPronoun.getD "unknown"
    startgg_discriminator := user.discriminator
    x_id := social.1.1
    x_name := social.1.2
    discord_id := social.2.1
    discord_name := social.2.2 }

/-- Body of the `for user, player in zip(user_data, player_data)` loop:
state is the `users` map plus the `new_users` list. -/
def extendStep (st : List (Int × NewUser) × List NewUser)
    (up : Option UserSrc × Option PlayerSrc) :
    List (Int × NewUser) × List NewUser :=
  match up with
  | (some user, some player) =>
    if (st.1.lookup user.id).isSome then st
    else
      let nu := mkNewUser user player
      (st.1 ++ [(user.id, nu)], st.2 ++ [nu])
  | _ => st

/-- `extend_user_info` as a pure function: the updated in-memory `users`
map paired with the `new_users` records handed to `extend_jsonl` (the
lines appended to the users file). -/
def extend_user_info (user_data : List (Option UserSrc))
    (player_data : List (Option PlayerSrc))
    (users : List (Int × NewUser)) :
    List (Int × NewUser) × List NewUser :=
  (user_data.zip player_data).foldl extendStep (users, [])

theorem lookup_append_some (l1 l2 : List (Int × NewUser)) (id : Int)
    (u : NewUser) (h : l1.lookup id = some u) :
    (l1 ++ l2).lookup id = some u := by
  induction l1 with
  | nil => simp [List.lookup] at h
  | cons hd tl ih =>
    simp only [List.cons_append, List.lookup] at h ⊢
    by_cases hid : id == hd.1
    · simpa [hid] using h
    · simp only [hid] at h ⊢
      exact ih h

theorem extendStep_invariant (users : List (Int × NewUser))
    (l : List (Option UserSrc × Option PlayerSrc)) :
    ∀ st : List (Int × NewUser) × List NewUser,
      (∃ tail, st.1 = users ++ tail) →
      (∀ nu ∈ st.2, users.lookup nu.user_id = none) →
      (∃ tail, (l.foldl extendStep st).1 = users ++ tail) ∧
      (∀ nu ∈ (l.foldl extendStep st).2,
        users.lookup nu.user_id = none) := by
  induction l with
  | nil => intro st h1 h2; exact ⟨h1, h2⟩
  | cons hd tl ih =>
    intro st h1 h2
    apply ih
    · match hup : hd with
      | (some user, some player) =>
        simp only [extendStep]
        by_cases hmem : (st.1.lookup user.id).isSome
        · simpa [hmem] using h1
        · obtain ⟨tail, htail⟩ := h1
          refine ⟨tail ++ [(user.id, mkNewUser user player)], ?_⟩
          rw [if_neg hmem]
          simp [htail]
      | (none, _) => simpa [extendStep] using h1
      | (some _, none) => simpa [extendStep] using h1
    · match hup : hd with
      | (some user, some player) =>
        simp only [extendStep]
        by_cases hmem : (st.1.lookup user.id).isSome
        · simpa [hmem] using h2
        · simp only [hmem, if_false, Bool.false_eq_true]
          intro nu hnu
          simp only [List.mem_append, List.mem_singleton] at hnu
          rcases hnu with hnu | hnu
          · exact h2 nu hnu
          · subst hnu
            obtain ⟨tail, htail⟩ := h1
            rw [htail] at hmem
            simp only [Option.isSome_iff_exists, not_exists] at hmem
            have hnone : (users ++ tail).lookup user.id = none := by
              cases hlk : (users ++ tail).lookup user.id with
              | none => rfl
              | some v => exact absurd hlk (hmem v)
            have huser : users.lookup user.id = none := by
              cases hu : users.lookup user.id with
              | none => rfl
              | some v =>
                rw [lookup_append_some users tail user.id v hu] at hnone
                exact absurd hnone (by simp)
            have hid : (mkNewUser user player).user_id = user.id := rfl
            rw [hid]
            exact huser
      | (none, _) => simpa [extendStep] using h2
      | (some _, none) => simpa [extendStep] using h2

/-- C6: `extend_user_info` is append-only — the resulting map is the
original map plus a tail of appended entries, every id already present
keeps its stored record unchanged, and every record handed to the on-disk
append (`new_users`) has an id that was not previously present. -/
theorem extend_user_info_append_only (user_data : List (Option UserSrc))
    (player_data : List (Option PlayerSrc))
    (users : List (Int × NewUser)) :
    (∃ tail, (extend_user_info user_data player_data users).1 =
        users ++ tail) ∧
    (∀ id u, users.lookup id = some u →
      (extend_user_info user_data player_data users).1.lookup id = some u) ∧
    (∀ nu ∈ (extend_user_info user_data player_data users).2,
      users.lookup nu.user_id = none) := by
  have h := extendStep_invariant users (user_data.zip player_data)
    (users, []) ⟨[], by simp⟩ (by simp)
  refine ⟨h.1, ?_, h.2⟩
  intro id u hu
  obtain ⟨tail, htail⟩ := h.1
  unfold extend_user_info
  rw [htail]
  exact lookup_append_some users tail id u hu

/-- A user record already stored under id 1. -/
def storedUser1 : NewUser :=
  { user_id := 1, player_id := 50, gamer_tag := some "OldTag"
    prefix_ := none, gender_pronoun := "unknown"
    startgg_discriminator := none, x_id := none, x_name := none
    discord_id := none, discord_name := none }

/-- Incoming data for the same user id 1 with different field values. -/
def incomingUser1 : UserSrc :=
  { id := 1, genderPronoun := some "she/her"
    discriminator := some "xyz", authorizations := none }

/-- Incoming player data paired with `incomingUser1`. -/
def incomingPlayer1 : PlayerSrc :=
  { id := 51, gamerTag := some "NewTag", prefix_ := some "TEAM" }

/-- Witness for C6: re-ingesting id 1 with different data leaves the
stored record untouched. -/
theorem extend_user_info_append_only_witness :
    (extend_user_info [some incomingUser1] [some incomingPlayer1]
        [(1, storedUser1)]).1.lookup 1 = some storedUser1 :=
  (extend_user_info_append_only [some incomingUser1] [some incomingPlayer1]
      [(1, storedUser1)]).2.1 1 storedUser1 (by decide)

end SmashDB

namespace SmashDB

/-! ## Standings null-user validation (`validate_event_dir`,
scripts/fix/validate_data.py)

Only the standings missing-user block is embedded.  Python computes the
ratio with float division against the literal `0.2`; here the ratio is an
exact rational, which orders identically against `1/5` for the tenths
arising from 10-entry lists. -/

/-- One entry of `standings.json`'s `data` list. -/
structure StandingEntry where
  placement : Option Int
  user_id : Option Int
  deriving DecidableEq, Repr

/-- Threshold constant from scripts/fix/validate_data.py. -/
def MAX_MISSING_USER_RATIO_ERROR : ℚ := 0.2

/-- The standings block of `validate_event_dir`: the error and warning
messages it contributes (interpolated counts elided from the text). -/
def standings_missing_user_check (standings : List StandingEntry) :
    List String × List String :=
  let missing_users :=
    (standings.filter (fun item => item.user_id.isNone)).length
  let ratio : ℚ :=
    if standings.length ≠ 0 then
      (missing_users : ℚ) / (standings.length : ℚ)
    else 0
  if missing_users ≠ 0 then
    if ratio > MAX_MISSING_USER_RATIO_ERROR then
      (["standings missing user_id ratio exceeds threshold"], [])
    else
      ([], ["standings missing user_id"])
  else ([], [])

/-- C7: on a standings list of 10 entries, 3 null user ids (ratio 30%,
above the 20% threshold) yield an error and no warning, while 1 null user
id (ratio 10%) yields only a warning. -/
theorem standings_ratio_thresholds (standings : List StandingEntry)
    (hlen : standings.length = 10) :
    ((standings.filter (fun item => item.user_id.isNone)).length = 3 →
      standings_missing_user_check standings =
        (["standings missing user_id ratio exceeds threshold"], [])) ∧
    ((standings.filter (fun item => item.user_id.isNone)).length = 1 →
      standings_missing_user_check standings =
        ([], ["standings missing user_id"])) := by
  constructor
  · intro hm
    unfold standings_missing_user_check
    rw [hm, hlen]
    norm_num [MAX_MISSING_USER_RATIO_ERROR]
  · intro hm
    unfold standings_missing_user_check
    rw [hm, hlen]
    norm_num [MAX_MISSING_USER_RATIO_ERROR]

/-- A standings entry at placement 1 with the given user id. -/
def entryWith (u : Option Int) : StandingEntry := ⟨some 1, u⟩

/-- Ten standings entries, the first three with null user id. -/
def standingsThreeNull : List StandingEntry :=
  [entryWith none, entryWith none, entryWith none, entryWith (some 4),
   entryWith (some 5), entryWith (some 6), entryWith (some 7),
   entryWith (some 8), entryWith (some 9), entryWith (some 10)]

/-- Ten standings entries, exactly one with null user id. -/
def standingsOneNull : List StandingEntry :=
  [entryWith none, entryWith (some 2), entryWith (some 3),
   entryWith (some 4), entryWith (some 5), entryWith (some 6),
   entryWith (some 7), entryWith (some 8), entryWith (some 9),
   entryWith (some 10)]

/-- Witness for C7 at the two concrete 10-entry standings lists. -/
theorem standings_ratio_thresholds_witness :
    standings_missing_user_check standingsThreeNull =
      (["standings missing user_id ratio exceeds threshold"], []) ∧
    standings_missing_user_check standingsOneNull =
      ([], ["standings missing user_id"]) :=
  ⟨(standings_ratio_thresholds standingsThreeNull rfl).1 (by decide),
   (standings_ratio_thresholds standingsOneNull rfl).2 (by decide)⟩

/-! ## Name normalization (`normalize_name`, scripts/check_jjpr_events.py)

`str.replace` is embedded as a left-to-right scan over the character list
(fuelled by the input length, enough since each step consumes at least one
character); `str.casefold` as per-character lowercasing, which agrees with
Python's casefold on the characters these names use (ASCII plus `／`). -/

/-- Left-to-right non-overlapping replacement scan of Python
`str.replace`, over character lists. -/
def pyReplaceAux (old new : List Char) : Nat → List Char → List Char
  | _, [] => []
  | 0, s => s
  | fuel + 1, c :: rest =>
    if old.isPrefixOf (c :: rest) then
      new ++ pyReplaceAux old new fuel ((c :: rest).drop old.length)
    else
      c :: pyReplaceAux old new fuel rest

/-- Python `s.replace(old, new)` (the empty-pattern case never arises in
the source and is mapped to the identity). -/
def pyReplace (s old new : String) : String :=
  if old.isEmpty then s
  else ⟨pyReplaceAux old.data new.data s.data.length s.data⟩

/-- Python `str.casefold`, per character. -/
def pyCasefold (s : String) : String := ⟨s.data.map Char.toLower⟩

/-- The separator replacement table of scripts/check_jjpr_events.py. -/
def REPLACEMENTS : List (String × String) :=
  [(" ", "_"), ("/", "-"), ("／", "-")]

/-- `normalize_name`: apply each replacement in order, then casefold. -/
def normalize_name (name : String) : String :=
  pyCasefold (REPLACEMENTS.foldl (fun s p => pyReplace s p.1 p.2) name)

/-- C8 counterexample: `normalize_name` never strips whitespace, so the
trailing space of `" Foo/Bar "` becomes a trailing underscore and the two
keys differ (`"_foo-bar_"` vs `"_foo-bar"`). -/
theorem normalize_name_c8_counterexample :
    normalize_name " Foo/Bar " ≠ normalize_name "_foo-bar" := by
  decide

/-- C8 amended: without the trailing space the two inputs do map to the
same normalized key, and with it the key gains a trailing underscore. -/
theorem normalize_name_c8_amended :
    normalize_name " Foo/Bar" = normalize_name "_foo-bar" ∧
    normalize_name " Foo/Bar " = "_foo-bar_" := by
  constructor <;> decide

/-! ## Reconciliation lookup (`build_tournament_index`,
scripts/check_jjpr_events.py; `find_missing_events`,
scripts/check_and_fill_missing.py)

The directory walk is abstracted to the list of
`(directory name, directory path)` pairs it visits; the `defaultdict`
index is an association list in first-insertion order. -/

/-- One entry of the JJPR target list (both fields may be absent). -/
structure TargetEvent where
  id : Option Int
  tournamentName : Option String
  deriving DecidableEq, Repr

/-- A target entry annotated with its `missing_reason`. -/
structure MissingEntry where
  event : TargetEvent
  missing_reason : String
  deriving DecidableEq, Repr

/-- `build_tournament_index`: group tournament directory paths by the
normalized directory name. -/
def build_tournament_index (tournament_dirs : List (String × String)) :
    List (String × List String) :=
  tournament_dirs.foldl
    (fun index d =>
      let key := normalize_name d.1
      match index.lookup key with
      | some _ =>
        index.map (fun e => if e.1 = key then (e.1, e.2 ++ [d.2]) else e)
      | none => index ++ [(key, [d.2])])
    []

/-- `find_missing_events` given the already-built index: a falsy
(`None` or empty) `tournamentName` records "tournamentName missing"; an
unmatched normalized name records "no matching directory". -/
def find_missing_events (target_events : List TargetEvent)
    (index : List (String × List String)) : List MissingEntry :=
  target_events.foldl
    (fun missing event =>
      match event.tournamentName with
      | none => missing ++ [⟨event, "tournamentName missing"⟩]
      | some name =>
        if name.isEmpty then
          missing ++ [⟨event, "tournamentName missing"⟩]
        else
          let normalized := normalize_name name
          let found := (index.lookup normalized).getD []
          if found.isEmpty then
            missing ++ [⟨event, "no matching directory"⟩]
          else missing)
    []

/-- The target entry `{id: 5, tournamentName: "Foo Cup"}`. -/
def fooCupTarget : TargetEvent := ⟨some 5, some "Foo Cup"⟩

/-- C9: against an empty store the Foo Cup target yields exactly one
discrepancy with reason "no matching directory"; after a directory whose
normalized name matches "Foo Cup" exists, the same call returns `[]`. -/
theorem find_missing_foo_cup_scenario :
    find_missing_events [fooCupTarget] (build_tournament_index []) =
      [⟨fooCupTarget, "no matching directory"⟩] ∧
    find_missing_events [fooCupTarget]
        (build_tournament_index
          [("Foo Cup", "data/startgg/events/JP/2024/01/01/Foo Cup")]) =
      [] := by
  constructor <;> decide

/-! ## Per-event pipeline control flow on the no-phase condition

The two ingestion drivers handle `NoPhaseError` differently; the steps a
driver completes for one event are modelled as a list. -/

/-- The ordered steps of per-event ingestion. -/
inductive IngestStep where
  | standings
  | seeds
  | extendUsers
  | matchSets
  | attributes
  | registerEvent
  | markDone
  deriving DecidableEq, Repr

/-- Steps completed for one event by the loop body of
`download_all_tournaments` (scripts/fetch/download.py): standings always;
then `download_seeds` is tried, and on `NoPhaseError` the handler prints
and executes `continue`, skipping `extend_user_info`, `download_all_set`,
`write_event_attributes` and the tournament event registration for that
event. -/
def download_all_tournaments_event_steps (noPhase : Bool) :
    List IngestStep :=
  [IngestStep.standings] ++
    (if noPhase then
      []
    else
      [IngestStep.seeds, IngestStep.extendUsers, IngestStep.matchSets,
       IngestStep.attributes, IngestStep.registerEvent])

/-- Steps completed for one event by `process_event`
(scripts/fix/fill_missing_events.py): on `NoPhaseError` only a message is
printed and every later step still runs. -/
def process_event_steps (noPhase : Bool) : List IngestStep :=
  [IngestStep.standings] ++
    (if noPhase then [] else [IngestStep.seeds]) ++
    [IngestStep.extendUsers, IngestStep.matchSets, IngestStep.attributes,
     IngestStep.registerEvent, IngestStep.markDone]

/-- C3 counterexample: in `download_all_tournaments` an event whose phase
lookup raises the no-phase condition is aborted — users are not merged,
match sets are not fetched, attributes are not written and the event is
not registered, refuting the claim for this driver. -/
theorem no_phase_aborts_event_counterexample :
    IngestStep.extendUsers ∉ download_all_tournaments_event_steps true ∧
    IngestStep.matchSets ∉ download_all_tournaments_event_steps true ∧
    IngestStep.attributes ∉ download_all_tournaments_event_steps true ∧
    IngestStep.registerEvent ∉ download_all_tournaments_event_steps true := by
  decide

/-- C3 amended: `process_event` treats the no-phase condition as
non-fatal — seeds are skipped but users are merged, match sets fetched,
attributes written and the event registered — while
`download_all_tournaments` aborts the event after standings. -/
theorem no_phase_nonfatal_amended :
    (IngestStep.seeds ∉ process_event_steps true ∧
     IngestStep.extendUsers ∈ process_event_steps true ∧
     IngestStep.matchSets ∈ process_event_steps true ∧
     IngestStep.attributes ∈ process_event_steps true ∧
     IngestStep.registerEvent ∈ process_event_steps true) ∧
    download_all_tournaments_event_steps true = [IngestStep.standings] := by
  decide

end SmashDB
